import Mathlib

/-!
Verification of the wallet service layer (frontend/src/services/wallet.js) and
the contract deployment service (frontend/src/services/contract.js, known here
through its test suite and the specification) of the spotnet dashboard.

The JavaScript functions are shallowly embedded as pure Lean functions over an
explicit environment that fixes the outcome of every external interaction
(the wallet connector, contract reads, the backend HTTP API).  A promise that
rejects is an Except.error; a promise that fulfills is an Except.ok.  Side
effects that the claims mention (user alerts, the events issued to the wallet
connector and the backend) are returned explicitly: alerts as a count, the
connector and HTTP traffic as a trace of events.

JavaScript numbers are modelled as IEEE 754 binary64 doubles with exact
integer arithmetic: Number(balance) is the correctly rounded double of the
integer balance (round to nearest, ties to even — roundDoubleNat), the
division by 10 ** decimals (itself exact for 6 and 18) is the correctly
rounded double quotient (jsDivDouble, returned as an exact fraction p / q),
and toFixed(4) is the ECMAScript algorithm applied to that double value:
exponential-notation ToString when the value reaches 10 ^ 21, otherwise the
integer part, a dot, and the value rounded half-up to exactly 4 fractional
digits.  The values never approach binary64 overflow or subnormals, so only
normal rounding is modelled.  The one remaining idealization is the digit
string of the exponential branch, which prints the digits of the exact
integer double rather than the shortest round-tripping digit string an
engine prints — both are exponential notation, never a 4-digit fixed
fraction.  Everything is implemented over Nat so that it evaluates in the
kernel; bridge lemmas (roundHalfEven_half, toFixed4Round_eq_floor,
largeValue_iff) relate the integer formulas to the rounding and to the real
values the ECMAScript algorithms are specified on.
-/

/-- A JavaScript value as far as truthiness and string content matter here:
either undefined (or null), or a string. -/
inductive JsVal
  | undef
  | str (s : String)
  deriving DecidableEq, Repr

/-- JavaScript truthiness for the values of JsVal: undefined and the empty
string are falsy, every other string is truthy. -/
def JsVal.truthy : JsVal → Bool
  | .undef => false
  | .str s => !(s == "")

/-- The decimal digit character for d, 0 ≤ d ≤ 9. -/
def digitChar (d : ℕ) : Char := Char.ofNat (48 + d)

/-- Fuel-driven most-significant-first decimal digit list of a natural
number; the fuel is an upper bound on the digit count. -/
def natReprAux : ℕ → ℕ → List Char
  | 0, _ => []
  | f + 1, n => if n < 10 then [digitChar n] else natReprAux f (n / 10) ++ [digitChar (n % 10)]

/-- Decimal representation of a natural number, as JavaScript ToString
produces it for integral values below 10 ^ 21. -/
def natRepr (n : ℕ) : String := String.mk (natReprAux (n + 1) n)

/-- The exactly-four fractional digits of n (mod 10 ^ 4), most significant
first: the fraction block that toFixed(4) prints. -/
def fracDigits4 (n : ℕ) : String :=
  String.mk [digitChar (n / 1000 % 10), digitChar (n / 100 % 10),
             digitChar (n / 10 % 10), digitChar (n % 10)]

/-- ECMAScript ToString for an integral value m with more than 21 decimal
digits: significant digits (trailing zeros stripped) in exponential notation.
(For values this large the engine prints the shortest digit string that
round-trips through the double; we idealize to the digits of the exact
integer.  Both are exponential notation, never a 4-digit fixed fraction.) -/
def ecmaToStringLargeNat (m : ℕ) : String :=
  let ds := natReprAux (m + 1) m
  let e := natRepr (ds.length - 1)
  match (ds.reverse.dropWhile (fun c => c == '0')).reverse with
  | [] => "0"
  | [c] => String.mk [c] ++ "e+" ++ e
  | c :: rest => String.mk [c] ++ "." ++ String.mk rest ++ "e+" ++ e

/-- Fuel-driven floor of the base-2 logarithm of a natural number (0 for
inputs below 2); the fuel is an upper bound on the result. -/
def natLog2Aux : ℕ → ℕ → ℕ
  | 0, _ => 0
  | f + 1, n => if n < 2 then 0 else natLog2Aux f (n / 2) + 1

/-- Floor of the base-2 logarithm of a positive natural number. -/
def natLog2 (n : ℕ) : ℕ := natLog2Aux n n

/-- The integer nearest to the fraction p / q (q positive), ties to the even
integer: the IEEE 754 binary64 rounding rule applied to an integer target.
The lemma roundHalfEven_half proves the nearest-with-even-ties property. -/
def roundHalfEven (p q : ℕ) : ℕ :=
  let t := p / q
  let r := p % q
  if 2 * r < q then t
  else if q < 2 * r then t + 1
  else if t % 2 = 0 then t else t + 1

/-- Number(b) for a nonnegative integer b: the binary64 double nearest to b,
ties to even.  Integers below 2 ^ 53 are exact; larger ones are rounded at
the 53-bit significand boundary.  (The balances at play stay far below the
binary64 overflow threshold.) -/
def roundDoubleNat (b : ℕ) : ℕ :=
  if b < 2 ^ 53 then b
  else
    let e := natLog2 b - 52
    roundHalfEven b (2 ^ e) * 2 ^ e

/-- The IEEE 754 binary64 quotient of the integer double p by the exactly
representable positive integer divisor q (here 10 ^ 6 or 10 ^ 18, both exact
doubles): the double nearest to p / q, ties to even, returned as an exact
fraction (numerator, denominator) with the denominator a power of two. -/
def jsDivDouble (p q : ℕ) : ℕ × ℕ :=
  if p = 0 then (0, 1)
  else
    let l0 : ℤ := (natLog2 p : ℤ) - natLog2 q
    -- adjust the estimate so that 2 ^ l ≤ p / q < 2 ^ (l + 1)
    let ok : Bool := if 0 ≤ l0 then (if q * 2 ^ l0.toNat ≤ p then true else false)
                     else (if q ≤ p * 2 ^ (-l0).toNat then true else false)
    let l : ℤ := if ok then l0 else l0 - 1
    let e : ℤ := l - 52
    if 0 ≤ e then (roundHalfEven p (q * 2 ^ e.toNat) * 2 ^ e.toNat, 1)
    else (roundHalfEven (p * 2 ^ (-e).toNat) q, 2 ^ (-e).toNat)

/-- The integer that ECMAScript toFixed(4) rounds the value p / q to (q
positive): the n with n / 10 ^ 4 closest to the value, ties upward.  Written
as an exact Nat formula for floor(p / q * 10 ^ 4 + 1 / 2); the lemma
toFixed4Round_eq_floor proves the correspondence. -/
def toFixed4Round (p q : ℕ) : ℕ := (2 * (p * 10 ^ 4) + q) / (2 * q)

/-- ECMAScript toFixed(4) on the nonnegative double value p / q (q a
positive power of two): ToString (exponential notation) when the value
reaches 10 ^ 21, otherwise the value rounded to exactly 4 fractional
digits. -/
def jsToFixed4 (p q : ℕ) : String :=
  if 10 ^ 21 * q ≤ p then ecmaToStringLargeNat (p / q)
  else natRepr (toFixed4Round p q / 10 ^ 4) ++ "." ++ fracDigits4 (toFixed4Round p q % 10 ^ 4)

/-- (Number(balance) / (10 ** tokenDecimals)).toFixed(4) of wallet.js line
107 on the nonnegative integer balance b: parse-round the balance to a
double, divide by the exactly representable double 10 ^ d with correctly
rounded binary64 division, and format the resulting double value with
ECMAScript toFixed(4). -/
def jsFormatBalance (b d : ℕ) : String :=
  jsToFixed4 (jsDivDouble (roundDoubleNat b) (10 ^ d)).1
    (jsDivDouble (roundDoubleNat b) (10 ^ d)).2

/-- Modelled from the spec: frontend/src/utils/constants.js is not among the
sources; only its import is.  The three token contract addresses are opaque
pairwise-distinct string constants. -/
def ETH_ADDRESS : String := "ETH_ADDRESS"

/-- Modelled from the spec: the USDC token contract address constant from
frontend/src/utils/constants.js, opaque and distinct from the other two. -/
def USDC_ADDRESS : String := "USDC_ADDRESS"

/-- Modelled from the spec: the STRK token contract address constant from
frontend/src/utils/constants.js, opaque and distinct from the other two. -/
def STRK_ADDRESS : String := "STRK_ADDRESS"

/-- The CRM token contract address constant of wallet.js line 7. -/
def CRM_TOKEN_ADDRESS : String :=
  "0x051c4b1fe3bf6774b87ad0b15ef5d1472759076e42944fff9b9f641ff13e5bbe"

/-- tokenDecimals of wallet.js line 105: 6 when the token contract address is
the USDC address, 18 otherwise. -/
def tokenDecimals (tokenAddress : String) : ℕ :=
  if tokenAddress == USDC_ADDRESS then 6 else 18

/-- A connected wallet as checkForCRMToken consumes it: the outcome of
wallet.account.callContract with entrypoint balanceOf and calldata the wallet
address.  An Except.error is a rejected promise; an Except.ok is the list of
response words, each a nonnegative integer (the value BigInt parses from the
word). -/
structure CrmWallet where
  callContract : String → Except String (List ℕ)

/-- The environment of one checkForCRMToken call: the development flag
(REACT_APP_IS_DEV === "true") and the outcome of connect(): a rejection, or a
fulfillment whose wallet field may be null. -/
structure CrmEnv where
  devFlag : Bool
  connectResult : Except String (Option CrmWallet)

/-- checkForCRMToken of wallet.js lines 9-39.  Returns the outcome (a
rejected promise is Except.error, carrying the error message) together with
the number of user alerts raised.  An empty response makes BigInt(response[0])
throw on undefined, which the catch block rethrows after logging. -/
def checkForCRMToken (env : CrmEnv) (walletAddress : String) : Except String Bool × ℕ :=
  if env.devFlag then (.ok true, 0)
  else
    match env.connectResult with
    | .error e => (.error e, 0)
    | .ok none => (.error "Wallet not connected", 0)
    | .ok (some w) =>
      match w.callContract walletAddress with
      | .error e => (.error e, 0)
      | .ok [] => (.error "TypeError: cannot convert undefined to a BigInt", 0)
      | .ok (b :: _) =>
        -- the alert text is "Beta testing is allowed only for users who hold the CRM token."
        if b > 0 then (.ok true, 0) else (.ok false, 1)

/-- The account object a wallet returned by connect() may expose, as
connectWallet consumes it. -/
structure CWAccount where
  address : JsVal

/-- A wallet as connectWallet consumes it: the outcome of wallet.enable(),
the selectedAddress property and the account object (absent when the wallet
carries no account at all). -/
structure CWWallet where
  enableResult : Except String Unit
  selectedAddress : JsVal
  account : Option CWAccount

/-- The environment of one connectWallet call: the outcome of
connect(include argentX braavos, modalMode alwaysAsk, modalTheme light). -/
structure CWEnv where
  connectResult : Except String (Option CWWallet)

/-- connectWallet of wallet.js lines 41-71.  Resolves the address as
wallet.selectedAddress || wallet.account.address; when selectedAddress is
falsy and the wallet has no account object, reading .address of undefined
throws a TypeError, which the catch block rethrows.  A falsy resolved address
raises the error "No wallet address found". -/
def connectWallet (env : CWEnv) : Except String JsVal :=
  match env.connectResult with
  | .error e => .error e
  | .ok none => .error "Failed to connect to wallet"
  | .ok (some w) =>
    match w.enableResult with
    | .error e => .error e
    | .ok _ =>
      match (if w.selectedAddress.truthy then .ok w.selectedAddress
             else match w.account with
                  | none => .error "TypeError: cannot read address of undefined"
                  | some a => .ok a.address : Except String JsVal) with
      | .error e => .error e
      | .ok v => if v.truthy then .ok v else .error "No wallet address found"

/-- A connected wallet as getTokenBalances and getTokenBalance consume it:
the outcome of wallet.account.callContract for a given token contract address
and calldata wallet address.  An Except.ok is the list of nonnegative integer
response words. -/
structure TBWallet where
  callContract : String → JsVal → Except String (List ℕ)

/-- The environment of one getTokenBalances call: the outcome of connect(). -/
structure TBEnv where
  connectResult : Except String (Option TBWallet)

/-- getTokenBalance of wallet.js lines 97-114.  Any failure inside the try
block (a rejected contract read, or BigInt throwing on an empty response) is
caught and coerced to the string "0"; otherwise the first response word is
formatted with the token-specific decimal count. -/
def getTokenBalance (w : TBWallet) (walletAddress : JsVal) (tokenAddress : String) : String :=
  match w.callContract tokenAddress walletAddress with
  | .error _ => "0"
  | .ok [] => "0"
  | .ok (b :: _) => jsFormatBalance b (tokenDecimals tokenAddress)

/-- The record getTokenBalances builds; each field is an Option so that the
consumer getBalances can test definedness the way the JS code tests
data.ETH !== undefined. -/
structure TokenBalances where
  ETH : Option String
  USDC : Option String
  STRK : Option String
  deriving DecidableEq, Repr

/-- getTokenBalances of wallet.js lines 77-95: connect, reject with
"Wallet not connected" when no wallet, otherwise one getTokenBalance per
token; per-token failures were already absorbed inside getTokenBalance, so
the record always carries all three keys. -/
def getTokenBalances (env : TBEnv) (walletAddress : JsVal) : Except String TokenBalances :=
  match env.connectResult with
  | .error e => .error e
  | .ok none => .error "Wallet not connected"
  | .ok (some w) =>
    .ok { ETH := some (getTokenBalance w walletAddress ETH_ADDRESS),
          USDC := some (getTokenBalance w walletAddress USDC_ADDRESS),
          STRK := some (getTokenBalance w walletAddress STRK_ADDRESS) }

/-- The three icon components imported at the top of wallet.js. -/
inductive Icon
  | ETH
  | USDC
  | STRK
  deriving DecidableEq, Repr

/-- One entry of the list getBalances hands to its callback. -/
structure BalanceEntry where
  icon : Icon
  title : String
  balance : String
  deriving DecidableEq, Repr

/-- getBalances of wallet.js lines 116-143.  Returns the argument passed to
the setBalances callback (none when the callback is never invoked — the
Option codomain also embeds that the callback fires at most once) paired with
whether a balance fetch was attempted.  Every error of the fetch is caught
and logged, never rethrown, so the codomain has no error case. -/
def getBalances (env : TBEnv) (walletId : JsVal) : Option (List BalanceEntry) × Bool :=
  if !walletId.truthy then (none, false)
  else
    match getTokenBalances env walletId with
    | .error _ => (none, true)
    | .ok data =>
      (some [{ icon := .ETH, title := "ETH",
               balance := match data.ETH with | some s => s | none => "0.00" },
             { icon := .USDC, title := "USDC",
               balance := match data.USDC with | some s => s | none => "0.00" },
             { icon := .STRK, title := "STRK",
               balance := match data.STRK with | some s => s | none => "0.00" }], true)

/-- One observable interaction of the contract deployment service with the
wallet connector or the backend HTTP API. -/
inductive Ev
  | connectCall
  | deployCall
  | waitCall (transactionHash : String)
  | getCheckUser (walletId : String)
  | postUpdate (walletId contractAddress : String)
  deriving DecidableEq, Repr

/-- Modelled from the spec: the connect() result as deployContract consumes
it; frontend/src/services/contract.js is not among the sources (only its test
suite is), and per the spec and tests the connector reports its session state
through an isConnected flag. -/
structure StarknetConn where
  isConnected : Bool

/-- Modelled from the spec: the fulfillment value of account.deployContract,
carrying transaction_hash and contract_address. -/
structure DeployOutcome where
  transaction_hash : String
  contract_address : String

/-- The value deployContract resolves with. -/
structure DeployResult where
  transactionHash : String
  contractAddress : String
  deriving DecidableEq, Repr

/-- Modelled from the spec: the environment of one contract-service call,
fixing the outcome of each external interaction: the backend GET
/api/check-user response field is_contract_deployed (error = the HTTP call
rejects), connect(), account.deployContract (its payload comes from the
static getDeployContractData configuration, not claim-relevant),
account.waitForTransaction, and the backend POST /api/update-user-contract. -/
structure ContractEnv where
  checkUserResult : Except String Bool
  connectResult : Except String StarknetConn
  deployResult : Except String DeployOutcome
  waitResult : Except String Unit
  postResult : Except String Unit

/-- Modelled from the spec: deployContract(walletId) of
frontend/src/services/contract.js, absent from the sources.  Per spec section
4.2 and the test suite: connect; reject with message exactly
"Wallet not connected" when the connector reports a disconnected session,
before any deployment call; otherwise invoke account.deployContract with the
static payload, block on account.waitForTransaction(transaction_hash), and
resolve with the transactionHash and contractAddress; every error propagates
verbatim.  Returns the outcome paired with the trace of interactions. -/
def deployContract (env : ContractEnv) (_walletId : String) :
    Except String DeployResult × List Ev :=
  match env.connectResult with
  | .error e => (.error e, [.connectCall])
  | .ok sn =>
    if !sn.isConnected then (.error "Wallet not connected", [.connectCall])
    else
      match env.deployResult with
      | .error e => (.error e, [.connectCall, .deployCall])
      | .ok r =>
        match env.waitResult with
        | .error e => (.error e, [.connectCall, .deployCall, .waitCall r.transaction_hash])
        | .ok _ => (.ok { transactionHash := r.transaction_hash,
                          contractAddress := r.contract_address },
                    [.connectCall, .deployCall, .waitCall r.transaction_hash])

/-- Modelled from the spec: checkAndDeployContract(walletId) of
frontend/src/services/contract.js, absent from the sources.  Per spec section
4.2 and the test suite: GET /api/check-user?wallet_id=walletId; when the
backend reports is_contract_deployed true, return immediately; otherwise run
deployContract and then POST /api/update-user-contract with body wallet_id =
walletId and contract_address = the deployed address; any failure is logged
with the fixed prefix "Error checking contract status:" and rethrown. -/
def checkAndDeployContract (env : ContractEnv) (walletId : String) :
    Except String Unit × List Ev :=
  match env.checkUserResult with
  | .error e => (.error e, [.getCheckUser walletId])
  | .ok true => (.ok (), [.getCheckUser walletId])
  | .ok false =>
    match deployContract env walletId with
    | (.error e, tr) => (.error e, .getCheckUser walletId :: tr)
    | (.ok r, tr) =>
      match env.postResult with
      | .error e =>
        (.error e, .getCheckUser walletId :: tr ++ [.postUpdate walletId r.contractAddress])
      | .ok _ =>
        (.ok (), .getCheckUser walletId :: tr ++ [.postUpdate walletId r.contractAddress])

/-- Bridge: roundHalfEven p q is within half a unit of the fraction p / q,
and at an exact half-unit tie it is even — the IEEE 754 round-to-nearest,
ties-to-even rule. -/
theorem roundHalfEven_half (p q : ℕ) (hq : 0 < q) :
    2 * ((p : ℤ) - q * roundHalfEven p q).natAbs ≤ q ∧
    (2 * ((p : ℤ) - q * roundHalfEven p q).natAbs = q → roundHalfEven p q % 2 = 0) := by
  have hlt : p % q < q := Nat.mod_lt p hq
  have hdmZ : (q : ℤ) * ((p / q : ℕ) : ℤ) + ((p % q : ℕ) : ℤ) = (p : ℤ) := by
    exact_mod_cast Nat.div_add_mod p q
  have habs0 : ((p : ℤ) - q * ((p / q : ℕ) : ℤ)).natAbs = p % q := by
    have key0 : (p : ℤ) - (q : ℤ) * ((p / q : ℕ) : ℤ) = ((p % q : ℕ) : ℤ) := by linarith
    rw [key0]; exact Int.natAbs_ofNat _
  have habs1 : ((p : ℤ) - q * (((p / q : ℕ) : ℤ) + 1)).natAbs = q - p % q := by
    have hx : (q : ℤ) * (((p / q : ℕ) : ℤ) + 1) = (q : ℤ) * ((p / q : ℕ) : ℤ) + q := by ring
    have key1 : (p : ℤ) - (q : ℤ) * (((p / q : ℕ) : ℤ) + 1) = ((p % q : ℕ) : ℤ) - q := by
      rw [hx]; linarith
    rw [key1]; omega
  simp only [roundHalfEven]
  by_cases h1 : 2 * (p % q) < q
  · rw [if_pos h1]
    constructor
    · rw [habs0]; omega
    · intro h; rw [habs0] at h; omega
  · rw [if_neg h1]
    by_cases h2 : q < 2 * (p % q)
    · rw [if_pos h2, Nat.cast_add, Nat.cast_one]
      constructor
      · rw [habs1]; omega
      · intro h; rw [habs1] at h; omega
    · rw [if_neg h2]
      by_cases h3 : p / q % 2 = 0
      · rw [if_pos h3]
        constructor
        · rw [habs0]; omega
        · intro _; exact h3
      · rw [if_neg h3, Nat.cast_add, Nat.cast_one]
        constructor
        · rw [habs1]; omega
        · intro _; omega

/-- Bridge: the Nat formula toFixed4Round is the floor of the exact rational
value p / q * 10 ^ 4 + 1 / 2 that ECMAScript toFixed(4) rounds the double
value p / q to. -/
theorem toFixed4Round_eq_floor (p q : ℕ) (hq : 0 < q) :
    toFixed4Round p q = ⌊(p : ℚ) / q * 10 ^ 4 + 1 / 2⌋₊ := by
  have hq2 : (0 : ℚ) < (q : ℚ) := by exact_mod_cast hq
  have h1 : (p : ℚ) / q * 10 ^ 4 + 1 / 2
      = ((2 * (p * 10 ^ 4) + q : ℕ) : ℚ) / ((2 * q : ℕ) : ℚ) := by
    push_cast
    field_simp
    ring
  rw [toFixed4Round, h1, Nat.floor_div_nat, Nat.floor_natCast]

/-- Bridge: the Nat threshold 10 ^ 21 * q ≤ p of jsFormatBalance is the
ECMAScript toFixed condition that the double value p / q reaches 10 ^ 21. -/
theorem largeValue_iff (p q : ℕ) (hq : 0 < q) :
    10 ^ 21 * q ≤ p ↔ (10 ^ 21 : ℚ) ≤ (p : ℚ) / q := by
  rw [le_div_iff₀ (by exact_mod_cast hq : (0 : ℚ) < (q : ℚ))]
  exact_mod_cast Iff.rfl

/-- C1: when the backend GET /api/check-user response reports
is_contract_deployed true, checkAndDeployContract returns without invoking
the wallet connector (no connect call, no deployment) and without issuing the
POST update: its trace is the single backend GET. -/
theorem checkAndDeploy_short_circuit (env : ContractEnv) (wid : String)
    (h : env.checkUserResult = .ok true) :
    checkAndDeployContract env wid = (.ok (), [Ev.getCheckUser wid]) ∧
    Ev.connectCall ∉ (checkAndDeployContract env wid).2 ∧
    Ev.deployCall ∉ (checkAndDeployContract env wid).2 ∧
    ∀ w a, Ev.postUpdate w a ∉ (checkAndDeployContract env wid).2 := by
  have he : checkAndDeployContract env wid = (.ok (), [Ev.getCheckUser wid]) := by
    simp [checkAndDeployContract, h]
  refine ⟨he, ?_, ?_, ?_⟩ <;> simp [he]

/-- An environment in which the backend reports the contract as already
deployed and every other interaction would fail if it were ever attempted. -/
def envDeployed : ContractEnv :=
  { checkUserResult := .ok true, connectResult := .error "unused",
    deployResult := .error "unused", waitResult := .error "unused",
    postResult := .error "unused" }

/-- C1 witness: the short circuit at a concrete wallet id. -/
theorem checkAndDeploy_short_circuit_w :
    checkAndDeployContract envDeployed "0x123" = (.ok (), [Ev.getCheckUser "0x123"]) ∧
    Ev.connectCall ∉ (checkAndDeployContract envDeployed "0x123").2 ∧
    Ev.deployCall ∉ (checkAndDeployContract envDeployed "0x123").2 ∧
    ∀ w a, Ev.postUpdate w a ∉ (checkAndDeployContract envDeployed "0x123").2 :=
  checkAndDeploy_short_circuit envDeployed "0x123" rfl

/-- C6: when the connector reports a disconnected session, deployContract
rejects with the message exactly "Wallet not connected" and its trace holds
no deployment call: the rejection happens before account.deployContract is
ever invoked. -/
theorem deployContract_not_connected (env : ContractEnv) (wid : String) (sn : StarknetConn)
    (h1 : env.connectResult = .ok sn) (h2 : sn.isConnected = false) :
    deployContract env wid = (.error "Wallet not connected", [Ev.connectCall]) ∧
    Ev.deployCall ∉ (deployContract env wid).2 := by
  have he : deployContract env wid = (.error "Wallet not connected", [Ev.connectCall]) := by
    simp [deployContract, h1, h2]
  exact ⟨he, by simp [he]⟩

/-- An environment whose connector reports a disconnected session. -/
def envDisconnected : ContractEnv :=
  { checkUserResult := .ok false, connectResult := .ok { isConnected := false },
    deployResult := .error "unused", waitResult := .error "unused",
    postResult := .error "unused" }

/-- C6 witness: the disconnected rejection at a concrete wallet id. -/
theorem deployContract_not_connected_w :
    deployContract envDisconnected "0x123" = (.error "Wallet not connected", [Ev.connectCall]) ∧
    Ev.deployCall ∉ (deployContract envDisconnected "0x123").2 :=
  deployContract_not_connected envDisconnected "0x123" { isConnected := false } rfl rfl

/-- C7: when the backend reports is_contract_deployed false and the on-chain
deployment succeeds with transaction hash th and contract address ca,
checkAndDeployContract first waits for transaction th and then issues the
POST /api/update-user-contract with body wallet_id = wid and
contract_address = ca; the full trace is GET, connect, deploy, wait th, POST
wid ca, in that order. -/
theorem checkAndDeploy_deploys_and_posts (env : ContractEnv) (wid th ca : String)
    (sn : StarknetConn) (h1 : env.checkUserResult = .ok false)
    (h2 : env.connectResult = .ok sn) (h3 : sn.isConnected = true)
    (h4 : env.deployResult = .ok { transaction_hash := th, contract_address := ca })
    (h5 : env.waitResult = .ok ()) (h6 : env.postResult = .ok ()) :
    checkAndDeployContract env wid =
      (.ok (), [Ev.getCheckUser wid, Ev.connectCall, Ev.deployCall,
                Ev.waitCall th, Ev.postUpdate wid ca]) ∧
    ∃ pre, (checkAndDeployContract env wid).2 = pre ++ [Ev.waitCall th, Ev.postUpdate wid ca] := by
  have he : checkAndDeployContract env wid =
      (.ok (), [Ev.getCheckUser wid, Ev.connectCall, Ev.deployCall,
                Ev.waitCall th, Ev.postUpdate wid ca]) := by
    simp [checkAndDeployContract, deployContract, h1, h2, h3, h4, h5, h6]
  exact ⟨he, [Ev.getCheckUser wid, Ev.connectCall, Ev.deployCall], by simp [he]⟩

/-- The environment of the deployment scenario of the spec: backend reports
not deployed, connector connected, deployment succeeds with transaction hash
0xabc and contract address 0xdef, wait and backend update succeed. -/
def envFreshDeploy : ContractEnv :=
  { checkUserResult := .ok false, connectResult := .ok { isConnected := true },
    deployResult := .ok { transaction_hash := "0xabc", contract_address := "0xdef" },
    waitResult := .ok (), postResult := .ok () }

/-- C7 witness: the spec scenario at a concrete wallet id. -/
theorem checkAndDeploy_deploys_and_posts_w :
    checkAndDeployContract envFreshDeploy "0x123" =
      (.ok (), [Ev.getCheckUser "0x123", Ev.connectCall, Ev.deployCall,
                Ev.waitCall "0xabc", Ev.postUpdate "0x123" "0xdef"]) ∧
    ∃ pre, (checkAndDeployContract envFreshDeploy "0x123").2 =
      pre ++ [Ev.waitCall "0xabc", Ev.postUpdate "0x123" "0xdef"] :=
  checkAndDeploy_deploys_and_posts envFreshDeploy "0x123" "0xabc" "0xdef"
    { isConnected := true } rfl rfl rfl rfl rfl rfl

/-- C4: with the development flag unset and the wallet connected, when the
balanceOf call resolves and its first word is the balance b,
checkForCRMToken returns false and raises exactly one user alert precisely
when b equals zero, and returns true with no alert when b is positive. -/
theorem checkForCRMToken_gate (w : CrmWallet) (addr : String) (b : ℕ) (rest : List ℕ)
    (hc : w.callContract addr = .ok (b :: rest)) :
    checkForCRMToken { devFlag := false, connectResult := .ok (some w) } addr =
      (if b = 0 then (.ok false, 1) else (.ok true, 0)) := by
  rcases Nat.eq_zero_or_pos b with hb | hb
  · subst hb; simp [checkForCRMToken, hc]
  · simp [checkForCRMToken, hc, hb, Nat.pos_iff_ne_zero.mp hb]

/-- A wallet whose CRM balance read resolves with the single word 0. -/
def crmWalletZero : CrmWallet := { callContract := fun _ => .ok [0] }

/-- A wallet whose CRM balance read resolves with the single word 5. -/
def crmWalletFive : CrmWallet := { callContract := fun _ => .ok [5] }

/-- C4 witness: the gate at concrete balances 0 and 5. -/
theorem checkForCRMToken_gate_w :
    checkForCRMToken { devFlag := false, connectResult := .ok (some crmWalletZero) } "0x1" =
      (.ok false, 1) ∧
    checkForCRMToken { devFlag := false, connectResult := .ok (some crmWalletFive) } "0x1" =
      (.ok true, 0) :=
  ⟨checkForCRMToken_gate crmWalletZero "0x1" 0 [] rfl,
   checkForCRMToken_gate crmWalletFive "0x1" 5 [] rfl⟩

/-- C9: checkForCRMToken reads only the first response word: whenever the
first word is zero it returns false and raises the alert, regardless of any
further response words such as the high 128-bit word of a u256 balance. -/
theorem checkForCRMToken_first_word_only (w : CrmWallet) (addr : String) (rest : List ℕ)
    (hc : w.callContract addr = .ok (0 :: rest)) :
    checkForCRMToken { devFlag := false, connectResult := .ok (some w) } addr =
      (.ok false, 1) := by
  simp [checkForCRMToken, hc]

/-- A wallet whose CRM balance read resolves with low word 0 and a nonzero
high word, as a u256 balance of 2 ^ 128 · 7 would. -/
def crmWalletHighWord : CrmWallet := { callContract := fun _ => .ok [0, 7] }

/-- C9 witness: a holder with zero low word and nonzero high word is
rejected with an alert. -/
theorem checkForCRMToken_first_word_only_w :
    checkForCRMToken { devFlag := false, connectResult := .ok (some crmWalletHighWord) } "0x1" =
      (.ok false, 1) :=
  checkForCRMToken_first_word_only crmWalletHighWord "0x1" [7] rfl

/-- A wallet whose enable() succeeds, whose selectedAddress is absent and
which carries no account object at all. -/
def cwNoAccount : CWWallet :=
  { enableResult := .ok (), selectedAddress := .undef, account := none }

/-- C5 counterexample: for a wallet with no account object and no
selectedAddress, connectWallet does not fail with the NoAddressError
"No wallet address found"; reading address of the undefined account throws a
TypeError, which the catch block rethrows. -/
theorem connectWallet_no_account_cex :
    connectWallet { connectResult := .ok (some cwNoAccount) } =
      .error "TypeError: cannot read address of undefined" ∧
    connectWallet { connectResult := .ok (some cwNoAccount) } ≠
      .error "No wallet address found" := by
  constructor
  · rfl
  · intro h
    have h2 : ("TypeError: cannot read address of undefined" : String) =
        "No wallet address found" := by
      have h1 : connectWallet { connectResult := .ok (some cwNoAccount) } =
          .error "TypeError: cannot read address of undefined" := rfl
      exact Except.error.inj (h1.symm.trans h)
    simp at h2

/-- C5 (amended): for a wallet whose enable() succeeds, connectWallet
returns selectedAddress when it is truthy, otherwise falls back to
account.address when the account object exists; when the account object
exists and both addresses are falsy it fails with the NoAddressError
"No wallet address found"; but when selectedAddress is falsy and there is no
account object at all, the TypeError from reading address of undefined
propagates instead of the NoAddressError. -/
theorem connectWallet_address_resolution (w : CWWallet) (acc : CWAccount)
    (he : w.enableResult = .ok ()) :
    (w.selectedAddress.truthy = true →
      connectWallet { connectResult := .ok (some w) } = .ok w.selectedAddress) ∧
    (w.selectedAddress.truthy = false → w.account = some acc → acc.address.truthy = true →
      connectWallet { connectResult := .ok (some w) } = .ok acc.address) ∧
    (w.selectedAddress.truthy = false → w.account = some acc → acc.address.truthy = false →
      connectWallet { connectResult := .ok (some w) } = .error "No wallet address found") ∧
    (w.selectedAddress.truthy = false → w.account = none →
      connectWallet { connectResult := .ok (some w) } =
        .error "TypeError: cannot read address of undefined") := by
  refine ⟨?_, ?_, ?_, ?_⟩
  · intro hs; simp [connectWallet, he, hs]
  · intro hs ha hat; simp [connectWallet, he, hs, ha, hat]
  · intro hs ha hat; simp [connectWallet, he, hs, ha, hat]
  · intro hs ha; simp [connectWallet, he, hs, ha]

/-- A wallet with a truthy selectedAddress. -/
def cwSelected : CWWallet :=
  { enableResult := .ok (), selectedAddress := .str "0xAA", account := none }

/-- A wallet with no selectedAddress whose account address is truthy. -/
def cwFallback : CWWallet :=
  { enableResult := .ok (), selectedAddress := .undef,
    account := some { address := .str "0xBB" } }

/-- A wallet with an account object but no address anywhere. -/
def cwAddressless : CWWallet :=
  { enableResult := .ok (), selectedAddress := .undef,
    account := some { address := .undef } }

/-- C5 witness: the four resolution branches at concrete wallets. -/
theorem connectWallet_address_resolution_w :
    connectWallet { connectResult := .ok (some cwSelected) } = .ok (.str "0xAA") ∧
    connectWallet { connectResult := .ok (some cwFallback) } = .ok (.str "0xBB") ∧
    connectWallet { connectResult := .ok (some cwAddressless) } =
      .error "No wallet address found" ∧
    connectWallet { connectResult := .ok (some cwNoAccount) } =
      .error "TypeError: cannot read address of undefined" :=
  ⟨(connectWallet_address_resolution cwSelected { address := .undef } rfl).1 rfl,
   (connectWallet_address_resolution cwFallback { address := .str "0xBB" } rfl).2.1 rfl rfl rfl,
   (connectWallet_address_resolution cwAddressless { address := .undef } rfl).2.2.1 rfl rfl rfl,
   (connectWallet_address_resolution cwNoAccount { address := .undef } rfl).2.2.2 rfl rfl⟩

/-- C2: with the wallet connected, getTokenBalances resolves with all three
balances, where a token whose read failed contributes exactly "0" and a token
whose read resolved contributes the real formatted value; and the whole call
rejects exactly when the wallet connection itself fails (connect rejects or
returns no wallet). -/
theorem getTokenBalances_per_token_failure (env : TBEnv) (w : TBWallet) (addr : JsVal)
    (h : env.connectResult = .ok (some w)) :
    getTokenBalances env addr =
      .ok { ETH := some (getTokenBalance w addr ETH_ADDRESS),
            USDC := some (getTokenBalance w addr USDC_ADDRESS),
            STRK := some (getTokenBalance w addr STRK_ADDRESS) } ∧
    (∀ t e, w.callContract t addr = .error e → getTokenBalance w addr t = "0") ∧
    (∀ t b rest, w.callContract t addr = .ok (b :: rest) →
      getTokenBalance w addr t = jsFormatBalance b (tokenDecimals t)) ∧
    (∀ env2 : TBEnv, ∀ a2 : JsVal, (∃ e, getTokenBalances env2 a2 = .error e) ↔
      (env2.connectResult = .ok none ∨ ∃ e, env2.connectResult = .error e)) := by
  refine ⟨by simp [getTokenBalances, h], ?_, ?_, ?_⟩
  · intro t e hc; simp [getTokenBalance, hc]
  · intro t b rest hc; simp [getTokenBalance, hc]
  · intro env2 a2
    constructor
    · rintro ⟨e, hge⟩
      cases hq : env2.connectResult with
      | error e2 => exact .inr ⟨e2, rfl⟩
      | ok ow =>
        cases ow with
        | none => exact .inl rfl
        | some w2 => simp [getTokenBalances, hq] at hge
    · rintro (hq | ⟨e, hq⟩)
      · exact ⟨"Wallet not connected", by simp [getTokenBalances, hq]⟩
      · exact ⟨e, by simp [getTokenBalances, hq]⟩

/-- A connected wallet whose ETH read rejects and whose USDC and STRK reads
resolve with 2 USDC (6 decimals) and 3 STRK (18 decimals) in base units. -/
def tbWalletMixed : TBWallet :=
  { callContract := fun t _ =>
      if t == ETH_ADDRESS then .error "read failed"
      else if t == USDC_ADDRESS then .ok [2000000]
      else .ok [3000000000000000000] }

/-- The environment whose connect() yields tbWalletMixed. -/
def tbEnvMixed : TBEnv := { connectResult := .ok (some tbWalletMixed) }

/-- C2 witness: the failing ETH read degrades to "0" while USDC and STRK
keep their real formatted values, evaluated concretely. -/
theorem getTokenBalances_per_token_failure_w :
    getTokenBalances tbEnvMixed (.str "0x123") =
      .ok { ETH := some "0", USDC := some "2.0000", STRK := some "3.0000" } ∧
    getTokenBalance tbWalletMixed (.str "0x123") ETH_ADDRESS = "0" :=
  ⟨((getTokenBalances_per_token_failure tbEnvMixed tbWalletMixed (.str "0x123") rfl).1).trans
      (by rfl),
   (getTokenBalances_per_token_failure tbEnvMixed tbWalletMixed (.str "0x123") rfl).2.1
      ETH_ADDRESS "read failed" rfl⟩

/-- C3 counterexample helper: a string of the shape a ++ "." ++ f contains
the dot character. -/
theorem dot_mem_of_shape (s a f : String) (h : s = a ++ "." ++ f) :
    '.' ∈ s.data := by
  subst h
  simp [String.data_append]

/-- A connected wallet whose USDC read resolves with the base-unit balance
10 ^ 28, i.e. the value 10 ^ 22 after the 6-decimal conversion. -/
def tbWalletHuge : TBWallet :=
  { callContract := fun t _ =>
      if t == USDC_ADDRESS then .ok [10 ^ 28] else .error "unused" }

set_option maxRecDepth 8192 in
/-- C3 counterexample: at the USDC balance 10 ^ 28 the double value of
Number(balance) / 10 ** 6 is exactly the representable double 10 ^ 22, so
toFixed(4) takes its exponential-notation branch and the formatted string is
"1e+22" (which is also exactly what a JS engine prints here), not a string
with an integer part, a dot and exactly 4 fractional digits; so not every
non-negative integer balance formats to exactly 4 fractional digits. -/
theorem getTokenBalance_exponential_cex :
    getTokenBalance tbWalletHuge (.str "0x123") USDC_ADDRESS = "1e+22" ∧
    ¬ ∃ ip f, getTokenBalance tbWalletHuge (.str "0x123") USDC_ADDRESS = ip ++ "." ++ f
        ∧ f.length = 4 := by
  have h1 : getTokenBalance tbWalletHuge (.str "0x123") USDC_ADDRESS = "1e+22" := by decide
  refine ⟨h1, ?_⟩
  rintro ⟨ip, f, hf, -⟩
  have hmem : '.' ∈ ("1e+22" : String).data := dot_mem_of_shape _ ip f (h1.symm.trans hf)
  simp at hmem

/-- C3 (amended): the conversion uses 6 decimals exactly when the token
contract address is the USDC address and 18 otherwise, and whenever the
double value of Number(balance) / 10 ** decimals — the fraction jsDivDouble
(roundDoubleNat b) (10 ^ decimals) that the program actually formats — stays
below 10 ^ 21, the threshold at which ECMAScript toFixed switches to
exponential notation, the formatted balance string is an integer part, a dot
and exactly 4 fractional digits. -/
theorem getTokenBalance_decimals_format (w : TBWallet) (addr : JsVal) (t : String)
    (b : ℕ) (rest : List ℕ)
    (hc : w.callContract t addr = .ok (b :: rest))
    (hb : (jsDivDouble (roundDoubleNat b) (10 ^ tokenDecimals t)).1 <
          10 ^ 21 * (jsDivDouble (roundDoubleNat b) (10 ^ tokenDecimals t)).2) :
    tokenDecimals USDC_ADDRESS = 6 ∧
    (t ≠ USDC_ADDRESS → tokenDecimals t = 18) ∧
    ∃ ip f, getTokenBalance w addr t = ip ++ "." ++ f ∧ f.length = 4 := by
  refine ⟨rfl, ?_, ?_⟩
  · intro ht; simp [tokenDecimals, ht]
  · refine ⟨natRepr (toFixed4Round (jsDivDouble (roundDoubleNat b) (10 ^ tokenDecimals t)).1
                (jsDivDouble (roundDoubleNat b) (10 ^ tokenDecimals t)).2 / 10 ^ 4),
            fracDigits4 (toFixed4Round (jsDivDouble (roundDoubleNat b) (10 ^ tokenDecimals t)).1
                (jsDivDouble (roundDoubleNat b) (10 ^ tokenDecimals t)).2 % 10 ^ 4), ?_, rfl⟩
    have hg : getTokenBalance w addr t = jsFormatBalance b (tokenDecimals t) := by
      simp [getTokenBalance, hc]
    rw [hg]
    unfold jsFormatBalance jsToFixed4
    rw [if_neg (Nat.not_le.mpr hb)]

/-- A connected wallet whose ETH read resolves with one ETH in base units. -/
def tbWalletOneEth : TBWallet :=
  { callContract := fun t _ =>
      if t == ETH_ADDRESS then .ok [10 ^ 18] else .error "unused" }

/-- C3 witness: at the ETH balance 10 ^ 18 (one ETH in base units) the
decimals are 18 and the formatted string splits as "1" ++ "." ++ "0000". -/
theorem getTokenBalance_decimals_format_w :
    tokenDecimals USDC_ADDRESS = 6 ∧
    tokenDecimals ETH_ADDRESS = 18 ∧
    ∃ ip f, getTokenBalance tbWalletOneEth (.str "0x123") ETH_ADDRESS = ip ++ "." ++ f
      ∧ f.length = 4 :=
  ⟨(getTokenBalance_decimals_format tbWalletOneEth (.str "0x123") ETH_ADDRESS
      (10 ^ 18) [] rfl (by decide)).1,
   (getTokenBalance_decimals_format tbWalletOneEth (.str "0x123") ETH_ADDRESS
      (10 ^ 18) [] rfl (by decide)).2.1 (by decide),
   (getTokenBalance_decimals_format tbWalletOneEth (.str "0x123") ETH_ADDRESS
      (10 ^ 18) [] rfl (by decide)).2.2⟩

/-- C8: getBalances is a no-op when walletId is falsy (the callback is never
invoked and no balance fetch is attempted), and any error of the balance
fetch is swallowed: the callback is simply not invoked, and the codomain of
getBalances carries no error case at all, so the call never rejects. -/
theorem getBalances_swallows_errors (env : TBEnv) (wid : JsVal) :
    (wid.truthy = false → getBalances env wid = (none, false)) ∧
    (∀ e, getTokenBalances env wid = .error e → getBalances env wid = (none, wid.truthy)) := by
  constructor
  · intro h; simp [getBalances, h]
  · intro e h
    cases ht : wid.truthy with
    | false => simp [getBalances, ht]
    | true => simp [getBalances, ht, h]

/-- An environment whose connect() rejects outright. -/
def tbEnvBroken : TBEnv := { connectResult := .error "connector down" }

/-- C8 witness: the falsy no-op and the swallowed fetch error at concrete
inputs. -/
theorem getBalances_swallows_errors_w :
    getBalances tbEnvBroken .undef = (none, false) ∧
    getBalances tbEnvBroken (.str "0x123") = (none, true) :=
  ⟨(getBalances_swallows_errors tbEnvBroken .undef).1 rfl,
   (getBalances_swallows_errors tbEnvBroken (.str "0x123")).2 "connector down" rfl⟩

/-- C10: every successful getTokenBalances result defines all three keys,
and whenever getBalances reaches its callback it passes exactly three
entries in the fixed order ETH, USDC, STRK, each carrying its icon, title
and the defined balance string of that token; the "0.00" default is never
exercised on this composed path, and the Option codomain records that the
callback fires at most once per call. -/
theorem getBalances_three_entries (env : TBEnv) (wid : JsVal) (d : TokenBalances)
    (hd : getTokenBalances env wid = .ok d) (hw : wid.truthy = true) :
    (d.ETH.isSome ∧ d.USDC.isSome ∧ d.STRK.isSome) ∧
    ∃ e u s, d.ETH = some e ∧ d.USDC = some u ∧ d.STRK = some s ∧
      getBalances env wid =
        (some [{ icon := .ETH, title := "ETH", balance := e },
               { icon := .USDC, title := "USDC", balance := u },
               { icon := .STRK, title := "STRK", balance := s }], true) := by
  cases hcr : env.connectResult with
  | error e2 => simp [getTokenBalances, hcr] at hd
  | ok ow =>
    cases ow with
    | none => simp [getTokenBalances, hcr] at hd
    | some w =>
      have hd2 : d = { ETH := some (getTokenBalance w wid ETH_ADDRESS),
                       USDC := some (getTokenBalance w wid USDC_ADDRESS),
                       STRK := some (getTokenBalance w wid STRK_ADDRESS) } := by
        simp [getTokenBalances, hcr] at hd
        exact hd.symm
      subst hd2
      refine ⟨⟨rfl, rfl, rfl⟩,
        getTokenBalance w wid ETH_ADDRESS, getTokenBalance w wid USDC_ADDRESS,
        getTokenBalance w wid STRK_ADDRESS, rfl, rfl, rfl, ?_⟩
      simp [getBalances, hw, getTokenBalances, hcr]

/-- C10 witness: the composed path at the concrete mixed environment,
callback argument evaluated. -/
theorem getBalances_three_entries_w :
    getBalances tbEnvMixed (.str "0x123") =
      (some [{ icon := .ETH, title := "ETH", balance := "0" },
             { icon := .USDC, title := "USDC", balance := "2.0000" },
             { icon := .STRK, title := "STRK", balance := "3.0000" }], true) := by
  have h := (getBalances_three_entries tbEnvMixed (.str "0x123")
      { ETH := some (getTokenBalance tbWalletMixed (.str "0x123") ETH_ADDRESS),
        USDC := some (getTokenBalance tbWalletMixed (.str "0x123") USDC_ADDRESS),
        STRK := some (getTokenBalance tbWalletMixed (.str "0x123") STRK_ADDRESS) }
      rfl rfl).2
  obtain ⟨e, u, s, he, hu, hs, hg⟩ := h
  rw [hg]
  cases he; cases hu; cases hs
  rfl
